import Mathlib

/-!
Shallow embedding of the CivSearch crawler (`src/scrape.py`) and proofs about
its crawl loop, checkpointing and persistence behaviour.

URLs are Lean `String`s.  Python's substring test `sub in s` is embedded as
`containsSub`, `url.split(c)[0]` as a `takeWhile`, and the module-level mutable
globals (`visited_urls`, `queue`, `processed_count`, `saved_count`) as the
record `CrawlState`.  The environment the loop interacts with (HTTP fetches,
the article classifier, success of file writes) is a record of oracles,
`World`; the loop itself is a fuel-indexed iteration of a step function
translated line by line from `crawl` in `scrape.py`.
-/

set_option autoImplicit false

namespace CivSearch

/-- Test whether `needle` occurs at the very front of `hay`
(character-wise equality). -/
def leadAgrees : List Char → List Char → Bool
  | [], _ => true
  | _ :: _, [] => false
  | a :: as, b :: bs => a == b && leadAgrees as bs

/-- Test whether `needle` occurs contiguously somewhere in `hay`. -/
def hasSub (needle : List Char) : List Char → Bool
  | [] => leadAgrees needle []
  | c :: t => leadAgrees needle (c :: t) || hasSub needle t

/-- Python's `needle in hay` on strings. -/
def containsSub (hay needle : String) : Bool :=
  hasSub needle.data hay.data

/-- Embedding of `url.split('#')[0].split('?')[0]` from `crawl` (scrape.py
lines 210-211): drop the fragment and the query components. -/
def normalize (url : String) : String :=
  String.mk (((url.data.takeWhile (fun c => c ≠ '#')).takeWhile (fun c => c ≠ '?')))

/-- The configured seed URL (`START_URL` in scrape.py). -/
def START_URL : String := "https://civilization.fandom.com/wiki/Civilization_V"

/-- The hardcoded debug URL (`kasbah_url` in `crawl`). -/
def kasbah_url : String := "https://civilization.fandom.com/wiki/Kasbah_(Civ5)"

/-- The site-domain string the crawl loop filters links with (scrape.py line 280). -/
def siteDomain : String := "civilization.fandom.com"

/-- The crawler's mutable aggregate: the module globals `visited_urls`,
`queue`, `processed_count` and `saved_count` of scrape.py. -/
structure CrawlState where
  visited : Finset String
  queue : List String
  processedCount : Nat
  savedCount : Nat
deriving DecidableEq

/-- Initial values of the module globals (scrape.py lines 25-31). -/
def freshState : CrawlState :=
  { visited := ∅, queue := [], processedCount := 0, savedCount := 0 }

/-- The environment the crawl loop interacts with: the classifier verdict for
a URL (`is_valid_civ5_article`), the outcome of the HTTP fetch (`none` models
a raised `RequestException` / non-2xx status; `some links` models a successful
response whose anchors, after the href skip-filter and `urljoin` resolution,
are the listed absolute URLs), whether the two writes inside `save_article`
succeed, and the configured `MAX_ARTICLES`. -/
structure World where
  valid : String → Bool
  fetch : String → Option (List String)
  articleWriteOk : String → Bool
  mappingWriteOk : String → Bool
  maxArticles : Nat

/-- Embedding of `save_article` (scrape.py lines 76-100): write the article file, append to
the mapping log, then increment `saved_count`.  Returns the new `saved_count`
together with a flag recording whether an exception escaped (a failed write
raises before the increment is reached). -/
def save_article (w : World) (url : String) (sc : Nat) : Nat × Bool :=
  if w.articleWriteOk url then
    if w.mappingWriteOk url then (sc + 1, false)
    else (sc, true)
  else (sc, true)

/-- The link-enqueue test of scrape.py line 280:
`"civilization.fandom.com" in absolute_url and absolute_url not in visited_urls`.
Note the substring test is over the whole URL and the membership test uses the
raw (unnormalized) URL. -/
def shouldEnqueue (visited : Finset String) (absolute_url : String) : Bool :=
  containsSub absolute_url siteDomain && !(decide (absolute_url ∈ visited))

/-- The body of one loop iteration after the popped URL has been normalized,
found unvisited, marked visited and counted (scrape.py lines 234-296).
`s1` is the state with the URL already inserted into `visited`.
A classifier rejection, a fetch failure or a write failure all fall through to
`continue`. -/
def processUrl (w : World) (s1 : CrawlState) (url : String) : CrawlState :=
  if w.valid url then
    match w.fetch url with
    | none => s1
    | some links =>
      if (save_article w url s1.savedCount).2 then
        { s1 with savedCount := (save_article w url s1.savedCount).1 }
      else if w.maxArticles ≤ (save_article w url s1.savedCount).1 then
        { s1 with savedCount := (save_article w url s1.savedCount).1 }
      else
        { s1 with
          savedCount := (save_article w url s1.savedCount).1
          queue := s1.queue ++ links.filter (fun l => shouldEnqueue s1.visited l) }
  else s1

/-- One iteration of the `while` loop in `crawl` (scrape.py lines 205-296),
together with the list of URLs actually processed in this iteration (empty
when the popped URL was already visited; the singleton of the normalized URL
otherwise). -/
def crawlStepTr (w : World) (s : CrawlState) : CrawlState × List String :=
  match s.queue with
  | [] => (s, [])
  | u0 :: rest =>
    let url := normalize u0
    if url ∈ s.visited then ({ s with queue := rest }, [])
    else
      let s1 : CrawlState :=
        { visited := insert url s.visited, queue := rest,
          processedCount := s.processedCount + 1, savedCount := s.savedCount }
      (processUrl w s1 url, [url])

/-- One iteration of the crawl loop, state part only. -/
def crawlStep (w : World) (s : CrawlState) : CrawlState :=
  (crawlStepTr w s).1

/-- The main `while queue and saved_count < MAX_ARTICLES` loop of `crawl`,
indexed by fuel (the loop may not terminate for an adversarial fetch oracle). -/
def crawlLoop (w : World) : Nat → CrawlState → CrawlState
  | 0, s => s
  | n + 1, s =>
    if s.queue = [] ∨ w.maxArticles ≤ s.savedCount then s
    else crawlLoop w n (crawlStep w s)

/-- The sequence of URLs processed (passed the visited check, hence marked
visited and handed to the classifier/fetcher) along a run of the loop. -/
def crawlTrace (w : World) : Nat → CrawlState → List String
  | 0, _ => []
  | n + 1, s =>
    if s.queue = [] ∨ w.maxArticles ≤ s.savedCount then []
    else (crawlStepTr w s).2 ++ crawlTrace w n (crawlStep w s)

/-- The pickled checkpoint dict built by `save_state` / read by `load_state`.
Each field is an `Option` because a corrupt checkpoint may deserialize to a
dict missing some keys (a missing key raises `KeyError` when accessed). -/
structure RawCheckpoint where
  visited_urls : Option (List String)
  saved_count : Option Nat
  processed_count : Option Nat
  queue : Option (List String)
deriving DecidableEq

/-- The checkpoint dict `save_state` pickles (scrape.py lines 111-116).
Python's `list(visited_urls)` enumerates the set in an unspecified order; the
model fixes the lexicographic enumeration of the `Finset`. -/
def serializeState (s : CrawlState) : RawCheckpoint :=
  { visited_urls := some (s.visited.sort (fun a b => a ≤ b)),
    saved_count := some s.savedCount,
    processed_count := some s.processedCount,
    queue := some s.queue }

/-- Embedding of `load_state` (scrape.py lines 134-156).  The checkpoint file is modelled as
`Option (Option RawCheckpoint)`: `none` = file absent, `some none` = file
present but `pickle.load` raises, `some (some r)` = it deserializes to the
dict `r`.  The four global assignments happen in order inside the `try`; the
first failing key access raises, the handler returns `False`, and the
assignments already made stick. -/
def load_state (file : Option (Option RawCheckpoint)) (g : CrawlState) :
    CrawlState × Bool :=
  match file with
  | none => (g, false)
  | some none => (g, false)
  | some (some r) =>
    match r.visited_urls with
    | none => (g, false)
    | some vs =>
      let g1 := { g with visited := vs.toFinset }
      match r.saved_count with
      | none => (g1, false)
      | some sc =>
        let g2 := { g1 with savedCount := sc }
        match r.processed_count with
        | none => (g2, false)
        | some pc =>
          let g3 := { g2 with processedCount := pc }
          match r.queue with
          | none => (g3, false)
          | some q => ({ g3 with queue := q }, true)

/-- The startup sequence of `crawl` (scrape.py lines 166-174): attempt
`load_state`; when nothing was loaded, set `queue = deque([START_URL])` and
then append the hardcoded `kasbah_url` when it is not already in the queue. -/
def initAfterLoad (file : Option (Option RawCheckpoint)) (g : CrawlState) :
    CrawlState :=
  let r := load_state file g
  if r.2 then r.1
  else
    let q0 := [START_URL]
    let q1 := if kasbah_url ∈ q0 then q0 else q0 ++ [kasbah_url]
    { r.1 with queue := q1 }

/-- The checkpoint-relevant part of the filesystem: the contents of the
canonical state file and of the `.tmp` file (`none` = absent). -/
structure CheckpointFS where
  canonical : Option RawCheckpoint
  temp : Option RawCheckpoint
deriving DecidableEq

/-- The filesystem states passed through by `save_state` (scrape.py lines
118-128), in order: after `pickle.dump` into the temp file; after
`os.remove(STATE_FILE)` (a no-op on the model when the canonical file is
absent, matching the `os.path.exists` guard); after
`os.rename(temp_file, STATE_FILE)`.  A crash observes a prefix of this list. -/
def save_stateStates (st : RawCheckpoint) (fs : CheckpointFS) : List CheckpointFS :=
  let fs1 : CheckpointFS := { canonical := fs.canonical, temp := some st }
  let fs2 : CheckpointFS := { canonical := none, temp := some st }
  let fs3 : CheckpointFS := { canonical := some st, temp := none }
  [fs1, fs2, fs3]

/-- Modelled from the spec: the host component of a URL — the text between the
`://` scheme separator and the next `/`, `?` or `#`.  Used to compare the
code's whole-URL substring filter against the spec's host-equality wording. -/
def hostOf (url : String) : String :=
  String.mk ((afterSchemeSep url.data).takeWhile
    (fun c => !(c == '/' || c == '?' || c == '#')))
where
  afterSchemeSep : List Char → List Char
    | [] => []
    | ':' :: '/' :: '/' :: rest => rest
    | _ :: rest => afterSchemeSep rest

/-! ### Helper lemmas about one loop iteration -/

/-- The function `save_article` returns `sc + 1` exactly when both writes succeed. -/
theorem save_article_fst (w : World) (url : String) (sc : Nat) :
    (save_article w url sc).1 =
      (if w.articleWriteOk url && w.mappingWriteOk url then sc + 1 else sc) := by
  unfold save_article
  cases h1 : w.articleWriteOk url <;> cases h2 : w.mappingWriteOk url <;> simp [h1, h2]

/-- The function `save_article` raises exactly when one of the two writes fails. -/
theorem save_article_snd (w : World) (url : String) (sc : Nat) :
    (save_article w url sc).2 = !(w.articleWriteOk url && w.mappingWriteOk url) := by
  unfold save_article
  cases h1 : w.articleWriteOk url <;> cases h2 : w.mappingWriteOk url <;> simp [h1, h2]

/-- The function `processUrl` never touches the visited set. -/
theorem processUrl_visited (w : World) (s1 : CrawlState) (url : String) :
    (processUrl w s1 url).visited = s1.visited := by
  unfold processUrl
  (repeat' split) <;> rfl

/-- The function `processUrl` never touches `processedCount`. -/
theorem processUrl_processedCount (w : World) (s1 : CrawlState) (url : String) :
    (processUrl w s1 url).processedCount = s1.processedCount := by
  unfold processUrl
  (repeat' split) <;> rfl

/-- One iteration increments `savedCount` by at most one. -/
theorem processUrl_saved_le (w : World) (s1 : CrawlState) (url : String) :
    (processUrl w s1 url).savedCount ≤ s1.savedCount + 1 := by
  have hb : (save_article w url s1.savedCount).1 ≤ s1.savedCount + 1 := by
    rw [save_article_fst]; split <;> omega
  unfold processUrl
  repeat' split
  all_goals first
    | exact Nat.le_succ _
    | simpa using hb

/-- Iteration on an empty queue is the identity. -/
theorem crawlStepTr_nil (w : World) (vis : Finset String) (pc sc : Nat) :
    crawlStepTr w ⟨vis, [], pc, sc⟩ = (⟨vis, [], pc, sc⟩, []) := rfl

/-- Popping an already-visited URL only shortens the queue; nothing is
processed. -/
theorem crawlStepTr_visited (w : World) (vis : Finset String) (u : String)
    (rest : List String) (pc sc : Nat) (hv : normalize u ∈ vis) :
    crawlStepTr w ⟨vis, u :: rest, pc, sc⟩ = (⟨vis, rest, pc, sc⟩, []) := by
  simp [crawlStepTr, hv]

/-- Popping an unvisited URL marks it visited, counts it and hands it to
`processUrl`. -/
theorem crawlStepTr_new (w : World) (vis : Finset String) (u : String)
    (rest : List String) (pc sc : Nat) (hv : normalize u ∉ vis) :
    crawlStepTr w ⟨vis, u :: rest, pc, sc⟩ =
      (processUrl w ⟨insert (normalize u) vis, rest, pc + 1, sc⟩ (normalize u),
       [normalize u]) := by
  simp [crawlStepTr, hv]

/-- The visited set only grows across an iteration. -/
theorem crawlStep_visited_mono (w : World) (s : CrawlState) :
    s.visited ⊆ (crawlStep w s).visited := by
  obtain ⟨vis, q, pc, sc⟩ := s
  cases q with
  | nil => exact Finset.Subset.refl _
  | cons u rest =>
    by_cases hv : normalize u ∈ vis
    · rw [crawlStep, crawlStepTr_visited w vis u rest pc sc hv]
    · rw [crawlStep, crawlStepTr_new w vis u rest pc sc hv]
      simp only [processUrl_visited]
      exact Finset.subset_insert _ _

/-- An iteration increments `savedCount` by at most one. -/
theorem crawlStep_saved_le (w : World) (s : CrawlState) :
    (crawlStep w s).savedCount ≤ s.savedCount + 1 := by
  obtain ⟨vis, q, pc, sc⟩ := s
  cases q with
  | nil => exact Nat.le_succ _
  | cons u rest =>
    by_cases hv : normalize u ∈ vis
    · rw [crawlStep, crawlStepTr_visited w vis u rest pc sc hv]
      exact Nat.le_succ _
    · rw [crawlStep, crawlStepTr_new w vis u rest pc sc hv]
      exact processUrl_saved_le w _ _

/-! ### Loop invariants -/

/-- The invariant `savedCount ≤ MAX_ARTICLES` is preserved by the loop. -/
theorem crawlLoop_saved_le (w : World) (n : Nat) :
    ∀ s : CrawlState, s.savedCount ≤ w.maxArticles →
      (crawlLoop w n s).savedCount ≤ w.maxArticles := by
  induction n with
  | zero => intro s h; exact h
  | succ n ih =>
    intro s h
    simp only [crawlLoop]
    split
    · exact h
    · rename_i hcond
      refine ih _ ?_
      have h2 : ¬ (w.maxArticles ≤ s.savedCount) := fun hh => hcond (Or.inr hh)
      have hstep := crawlStep_saved_le w s
      omega

/-- The visited set only grows along a run. -/
theorem crawlLoop_visited_mono (w : World) (n : Nat) :
    ∀ s : CrawlState, s.visited ⊆ (crawlLoop w n s).visited := by
  induction n with
  | zero => intro s; exact Finset.Subset.refl _
  | succ n ih =>
    intro s
    simp only [crawlLoop]
    split
    · exact Finset.Subset.refl _
    · exact (crawlStep_visited_mono w s).trans (ih _)

/-- A URL processed in an iteration was unvisited just before it. -/
theorem crawlStepTr_snd_not_visited (w : World) (s : CrawlState) :
    ∀ v ∈ (crawlStepTr w s).2, v ∉ s.visited := by
  obtain ⟨vis, q, pc, sc⟩ := s
  cases q with
  | nil => intro v hv; cases hv
  | cons u rest =>
    by_cases hv : normalize u ∈ vis
    · rw [crawlStepTr_visited w vis u rest pc sc hv]
      intro v h; cases h
    · rw [crawlStepTr_new w vis u rest pc sc hv]
      intro v h
      rcases List.mem_singleton.mp h with rfl
      exact hv

/-- A URL processed in an iteration is visited just after it. -/
theorem crawlStepTr_snd_visited_after (w : World) (s : CrawlState) :
    ∀ v ∈ (crawlStepTr w s).2, v ∈ (crawlStep w s).visited := by
  obtain ⟨vis, q, pc, sc⟩ := s
  cases q with
  | nil => intro v hv; cases hv
  | cons u rest =>
    by_cases hv : normalize u ∈ vis
    · rw [crawlStep, crawlStepTr_visited w vis u rest pc sc hv]
      intro v h; cases h
    · rw [crawlStep, crawlStepTr_new w vis u rest pc sc hv]
      intro v h
      rcases List.mem_singleton.mp h with rfl
      simp only [processUrl_visited]
      exact Finset.mem_insert_self _ _

/-- No URL in the trace of a run was visited at the start of the run. -/
theorem crawlTrace_not_visited (w : World) (n : Nat) :
    ∀ s : CrawlState, ∀ v ∈ crawlTrace w n s, v ∉ s.visited := by
  induction n with
  | zero => intro s v hv; cases hv
  | succ n ih =>
    intro s v hv
    rw [crawlTrace] at hv
    split at hv
    · cases hv
    · rcases List.mem_append.mp hv with h | h
      · exact crawlStepTr_snd_not_visited w s v h
      · intro hmem
        exact ih _ v h (crawlStep_visited_mono w s hmem)

/-- Every URL in the trace of a run is in the visited set at the end of it. -/
theorem crawlTrace_visited_after (w : World) (n : Nat) :
    ∀ s : CrawlState, ∀ v ∈ crawlTrace w n s, v ∈ (crawlLoop w n s).visited := by
  induction n with
  | zero => intro s v hv; cases hv
  | succ n ih =>
    intro s v hv
    rw [crawlTrace] at hv
    rw [crawlLoop]
    split at hv
    · cases hv
    · rename_i hcond
      rw [if_neg hcond]
      rcases List.mem_append.mp hv with h | h
      · exact crawlLoop_visited_mono w n _ (crawlStepTr_snd_visited_after w s v h)
      · exact ih _ v h

/-- The URLs processed in a single iteration form a duplicate-free list. -/
theorem crawlStepTr_snd_nodup (w : World) (s : CrawlState) :
    (crawlStepTr w s).2.Nodup := by
  obtain ⟨vis, q, pc, sc⟩ := s
  cases q with
  | nil => exact List.nodup_nil
  | cons u rest =>
    by_cases hv : normalize u ∈ vis
    · rw [crawlStepTr_visited w vis u rest pc sc hv]
      exact List.nodup_nil
    · rw [crawlStepTr_new w vis u rest pc sc hv]
      exact List.nodup_singleton _

/-- The trace of a run never repeats a URL. -/
theorem crawlTrace_nodup (w : World) (n : Nat) :
    ∀ s : CrawlState, (crawlTrace w n s).Nodup := by
  induction n with
  | zero => intro s; exact List.nodup_nil
  | succ n ih =>
    intro s
    rw [crawlTrace]
    split
    · exact List.nodup_nil
    · refine List.Nodup.append (crawlStepTr_snd_nodup w s) (ih _) ?_
      intro v hv hmem
      exact crawlTrace_not_visited w n _ v hmem
        (crawlStepTr_snd_visited_after w s v hv)

/-! ### Concrete fixtures for counterexamples and witnesses -/

/-- A wiki article URL used in concrete runs. -/
def articleUrl : String := "https://civilization.fandom.com/wiki/America_(Civ5)"

/-- The same article URL with a fragment attached. -/
def fragUrl : String := "https://civilization.fandom.com/wiki/America_(Civ5)#top"

/-- A URL on a foreign host that contains the site-domain string in its path. -/
def badHostUrl : String := "https://evil.example/civilization.fandom.com/page"

/-- Environment in which every classifier verdict is negative and every fetch
fails. -/
def wNull : World :=
  { valid := fun _ => false, fetch := fun _ => none,
    articleWriteOk := fun _ => false, mappingWriteOk := fun _ => false,
    maxArticles := 1000 }

/-- Environment whose one page links to the fragment variant of `articleUrl`. -/
def wFrag : World :=
  { valid := fun _ => true, fetch := fun _ => some [fragUrl],
    articleWriteOk := fun _ => true, mappingWriteOk := fun _ => true,
    maxArticles := 1000 }

/-- Environment whose one page links to `badHostUrl`. -/
def wBadHost : World :=
  { valid := fun _ => true, fetch := fun _ => some [badHostUrl],
    articleWriteOk := fun _ => true, mappingWriteOk := fun _ => true,
    maxArticles := 1000 }

/-- Environment in which the mapping-log append fails. -/
def wFailWrite : World :=
  { valid := fun _ => true, fetch := fun _ => some [],
    articleWriteOk := fun _ => true, mappingWriteOk := fun _ => false,
    maxArticles := 1000 }

/-- Environment with `MAX_ARTICLES = 3` and inert oracles. -/
def wLimit : World :=
  { valid := fun _ => false, fetch := fun _ => none,
    articleWriteOk := fun _ => false, mappingWriteOk := fun _ => false,
    maxArticles := 3 }

/-- Fresh state about to process the seed. -/
def sStart : CrawlState :=
  { visited := ∅, queue := [START_URL],
    processedCount := 0, savedCount := 0 }

/-- State whose queue head is a URL that is already visited. -/
def sDup : CrawlState :=
  { visited := {articleUrl}, queue := [articleUrl, START_URL],
    processedCount := 7, savedCount := 0 }

/-- State about to process the seed with `articleUrl` already visited. -/
def sSeed : CrawlState :=
  { visited := {articleUrl}, queue := [START_URL],
    processedCount := 0, savedCount := 0 }

/-- State that has already reached the limit of `wLimit` with work pending. -/
def sFull : CrawlState :=
  { visited := ∅, queue := [START_URL],
    processedCount := 9, savedCount := 3 }

/-- A deserialized checkpoint dict holding only the `visited_urls` key. -/
def corruptCheckpoint : RawCheckpoint :=
  { visited_urls := some [articleUrl],
    saved_count := none, processed_count := none, queue := none }

/-- Contents of a previously written checkpoint file. -/
def prevCheckpoint : RawCheckpoint :=
  { visited_urls := some [], saved_count := some 0,
    processed_count := some 0, queue := some [START_URL] }

/-- Contents of the checkpoint being written over it. -/
def nextCheckpoint : RawCheckpoint :=
  { visited_urls := some [START_URL], saved_count := some 0,
    processed_count := some 1, queue := some [] }

/-- Filesystem holding a previously written checkpoint and no temp file. -/
def fsPrev : CheckpointFS := { canonical := some prevCheckpoint, temp := none }

/-! ### Further lemmas about single iterations -/

/-- When the classifier accepts, the fetch succeeds and both writes succeed,
`processUrl` increments `savedCount` by exactly one. -/
theorem processUrl_write_ok (w : World) (s1 : CrawlState) (url : String)
    (links : List String) (hc : w.valid url = true) (hf : w.fetch url = some links)
    (hok : (w.articleWriteOk url && w.mappingWriteOk url) = true) :
    (processUrl w s1 url).savedCount = s1.savedCount + 1 := by
  have h1 : (save_article w url s1.savedCount).1 = s1.savedCount + 1 := by
    simp [save_article_fst, hok]
  have h2 : (save_article w url s1.savedCount).2 = false := by
    simp [save_article_snd, hok]
  simp only [processUrl, hc, hf, h1, h2, if_true]
  split
  · rfl
  · split <;> rfl

/-- When the classifier accepts and the fetch succeeds but one of the two
writes fails, `processUrl` leaves the state unchanged (the exception is
caught by the loop and the crawl continues). -/
theorem processUrl_write_fail (w : World) (s1 : CrawlState) (url : String)
    (links : List String) (hc : w.valid url = true) (hf : w.fetch url = some links)
    (hbad : (w.articleWriteOk url && w.mappingWriteOk url) = false) :
    processUrl w s1 url = s1 := by
  have h1 : (save_article w url s1.savedCount).1 = s1.savedCount := by
    simp [save_article_fst, hbad]
  have h2 : (save_article w url s1.savedCount).2 = true := by
    simp [save_article_snd, hbad]
  simp only [processUrl, hc, hf, h1, h2, if_true]

/-! ### The claims -/

/-- C1 counterexample: `save_state` deletes the canonical checkpoint file
before the rename, so the filesystem state reached after the temp-file write
and the `os.remove` — a point "after the temp-file write but before the
rename completes" — has no canonical checkpoint file at all: the previous
checkpoint (`prevCheckpoint`) is not intact there. -/
theorem checkpoint_remove_crash_loses_previous :
    save_stateStates nextCheckpoint fsPrev =
      [{ canonical := some prevCheckpoint, temp := some nextCheckpoint },
       { canonical := none, temp := some nextCheckpoint },
       { canonical := some nextCheckpoint, temp := none }] ∧
    (none : Option RawCheckpoint) ≠ some prevCheckpoint :=
  ⟨rfl, by simp⟩

/-- C1 (amended): `save_state` serializes to a temporary file first and never
mutates the canonical file in place: a crash right after the temp write
leaves the previous checkpoint intact, the canonical file always holds either
the previous checkpoint, nothing (the remove-to-rename window), or the
complete new checkpoint, and on completion it holds the new checkpoint with
the temp file gone. -/
theorem save_state_window (st : RawCheckpoint) (fs : CheckpointFS) :
    (save_stateStates st fs)[0]? = some { canonical := fs.canonical, temp := some st } ∧
    (save_stateStates st fs)[2]? = some { canonical := some st, temp := none } ∧
    ((save_stateStates st fs).all fun g =>
      decide (g.canonical = fs.canonical ∨ g.canonical = none ∨ g.canonical = some st)) = true := by
  refine ⟨rfl, rfl, ?_⟩
  simp [save_stateStates]

/-- C2: whenever the run starts with `savedCount ≤ maxArticles`, every state
reached by the loop satisfies `savedCount ≤ maxArticles`; and as soon as
`savedCount` equals `maxArticles` the loop stops immediately, even when the
queue is non-empty. -/
theorem savedCount_invariant (w : World) (s : CrawlState) (n : Nat)
    (h : s.savedCount ≤ w.maxArticles) :
    (crawlLoop w n s).savedCount ≤ w.maxArticles ∧
    (s.savedCount = w.maxArticles → crawlLoop w n s = s) := by
  refine ⟨crawlLoop_saved_le w n s h, fun he => ?_⟩
  cases n with
  | zero => rfl
  | succ n => rw [crawlLoop, if_pos (Or.inr (le_of_eq he.symm))]

/-- C2 witness: with `maxArticles = 3`, a state that has already saved three
articles and still has a queued URL is left untouched by the loop. -/
theorem savedCount_invariant_witness :
    (crawlLoop wLimit 5 sFull).savedCount ≤ wLimit.maxArticles ∧
    (sFull.savedCount = wLimit.maxArticles → crawlLoop wLimit 5 sFull = sFull) :=
  savedCount_invariant wLimit sFull 5 (by decide)

/-- C3 counterexample: on a fresh start the queue is not `[START_URL]`: the
hardcoded debug URL `kasbah_url` is appended right after the seed
(scrape.py lines 171-174). -/
theorem fresh_start_not_seed_only :
    (initAfterLoad none freshState).queue ≠ [START_URL] ∧
    (initAfterLoad none freshState).queue = [START_URL, kasbah_url] :=
  ⟨by decide, by decide⟩

/-- C3 (amended): when no checkpoint file exists, `load_state` reports no
state without raising, and the crawl starts with
`queue = [START_URL, kasbah_url]` — the seed followed by the hardcoded debug
URL — while the other state components keep their fresh-run values. -/
theorem fresh_start_queue (g : CrawlState) :
    load_state none g = (g, false) ∧
    (initAfterLoad none g).queue = [START_URL, kasbah_url] ∧
    (initAfterLoad none g).visited = g.visited ∧
    (initAfterLoad none g).processedCount = g.processedCount ∧
    (initAfterLoad none g).savedCount = g.savedCount := by
  have hk : kasbah_url ≠ START_URL := by decide
  refine ⟨rfl, ?_, ?_, ?_, ?_⟩ <;> simp [initAfterLoad, load_state, hk]

/-- C4 counterexample: popping a URL that is already visited shortens the
queue but does not change `processedCount`, so `processedCount` is not the
total number of pops. -/
theorem visited_pop_not_counted :
    sDup.queue.length = (crawlStep wNull sDup).queue.length + 1 ∧
    (crawlStep wNull sDup).processedCount = sDup.processedCount :=
  ⟨by decide, by decide⟩

/-- C4 (amended): a pop increments `processedCount` by one exactly when the
popped URL's normalized form is not yet visited; a pop of an already-visited
URL leaves `processedCount` unchanged. -/
theorem processed_counts_unvisited_pops (w : World) (vis : Finset String)
    (u : String) (rest : List String) (pc sc : Nat) :
    (crawlStep w ⟨vis, u :: rest, pc, sc⟩).processedCount =
      pc + (if normalize u ∈ vis then 0 else 1) := by
  by_cases hv : normalize u ∈ vis
  · rw [crawlStep, crawlStepTr_visited w vis u rest pc sc hv, if_pos hv]
    rfl
  · rw [crawlStep, crawlStepTr_new w vis u rest pc sc hv, if_neg hv]
    simp [processUrl_processedCount]

/-- C5 counterexample: with `articleUrl` already visited, processing a page
that links to `fragUrl` (the same URL plus a fragment) pushes `fragUrl` onto
the queue, even though its normalized key is in `visited` — the push-time
check uses the raw URL. -/
theorem fragment_variant_repushed :
    (crawlStep wFrag sSeed).queue = [fragUrl] ∧ normalize fragUrl ∈ sSeed.visited :=
  ⟨by decide, by decide⟩

/-- C5 (amended): the push-time membership test uses the raw absolute URL, so
only a URL that is in `visited` verbatim is never pushed; a link differing
from a visited URL by fragment or query may be re-pushed, and is discarded
only at pop time, where normalization happens before the visited check. -/
theorem push_raw_pop_normalized (w : World) (visited : Finset String) (u : String)
    (vis : Finset String) (v : String) (rest : List String) (pc sc : Nat)
    (hu : u ∈ visited) (hv : normalize v ∈ vis) :
    shouldEnqueue visited u = false ∧
    crawlStep w ⟨vis, v :: rest, pc, sc⟩ = ⟨vis, rest, pc, sc⟩ := by
  constructor
  · simp [shouldEnqueue, hu]
  · rw [crawlStep, crawlStepTr_visited w vis v rest pc sc hv]

/-- C5 witness: a verbatim-visited URL is not enqueued, and the queued
fragment variant of a visited URL is skipped when popped. -/
theorem push_raw_pop_normalized_witness :
    shouldEnqueue sSeed.visited articleUrl = false ∧
    crawlStep wNull ⟨sSeed.visited, [fragUrl], 2, 1⟩ = ⟨sSeed.visited, [], 2, 1⟩ :=
  push_raw_pop_normalized wNull sSeed.visited articleUrl sSeed.visited fragUrl [] 2 1
    (by decide) (by decide)

/-- C6 counterexample: a page linking to `badHostUrl`, whose host is
`evil.example` but whose path contains the site-domain string, gets that URL
enqueued: the filter is a substring test on the whole URL, not a host
comparison. -/
theorem path_substring_enqueued :
    (crawlStep wBadHost sStart).queue = [badHostUrl] ∧
    hostOf badHostUrl ≠ siteDomain ∧
    containsSub badHostUrl siteDomain = true :=
  ⟨by decide, by decide, by decide⟩

/-- C6 (amended): the crawl loop enqueues a link only if the absolute URL
contains the site-domain string as a substring (anywhere in the URL) and the
raw URL is not yet visited; host equality is not required. -/
theorem enqueue_only_if_substring (visited : Finset String) (u : String)
    (h : shouldEnqueue visited u = true) :
    containsSub u siteDomain = true ∧ u ∉ visited := by
  simpa [shouldEnqueue, Bool.and_eq_true] using h

/-- C6 witness: the seed URL passes the enqueue filter over an empty visited
set, and indeed contains the domain substring. -/
theorem enqueue_only_if_substring_witness :
    containsSub START_URL siteDomain = true ∧ START_URL ∉ (∅ : Finset String) :=
  enqueue_only_if_substring ∅ START_URL (by decide)

/-- C7: saving any crawl state and loading the resulting checkpoint
reproduces the visited set, the queue sequence and both counters exactly,
and reports that a state was loaded. -/
theorem checkpoint_roundtrip (s g : CrawlState) :
    (load_state (some (some (serializeState s))) g).1.visited = s.visited ∧
    (load_state (some (some (serializeState s))) g).1.queue = s.queue ∧
    (load_state (some (some (serializeState s))) g).1.processedCount = s.processedCount ∧
    (load_state (some (some (serializeState s))) g).1.savedCount = s.savedCount ∧
    (load_state (some (some (serializeState s))) g).2 = true := by
  refine ⟨?_, rfl, rfl, rfl, rfl⟩
  simp [load_state, serializeState, Finset.sort_toFinset]

/-- C8: when an unvisited URL is accepted and fetched, `savedCount` is
incremented by exactly one precisely when both the article write and the
mapping-log append succeed; when either fails, `savedCount` is unchanged and
the loop simply moves on to the rest of the queue. -/
theorem save_article_guarded (w : World) (vis : Finset String) (u : String)
    (rest : List String) (pc sc : Nat) (links : List String)
    (hv : normalize u ∉ vis) (hc : w.valid (normalize u) = true)
    (hf : w.fetch (normalize u) = some links) :
    ((w.articleWriteOk (normalize u) && w.mappingWriteOk (normalize u)) = true →
      (crawlStep w ⟨vis, u :: rest, pc, sc⟩).savedCount = sc + 1) ∧
    ((w.articleWriteOk (normalize u) && w.mappingWriteOk (normalize u)) = false →
      (crawlStep w ⟨vis, u :: rest, pc, sc⟩).savedCount = sc ∧
      (crawlStep w ⟨vis, u :: rest, pc, sc⟩).queue = rest) := by
  have hstep : crawlStep w ⟨vis, u :: rest, pc, sc⟩ =
      processUrl w ⟨insert (normalize u) vis, rest, pc + 1, sc⟩ (normalize u) := by
    rw [crawlStep, crawlStepTr_new w vis u rest pc sc hv]
  constructor
  · intro hok
    rw [hstep]
    exact processUrl_write_ok w _ _ links hc hf hok
  · intro hbad
    rw [hstep, processUrl_write_fail w _ _ links hc hf hbad]
    exact ⟨rfl, rfl⟩

/-- C8 witness: in an environment whose mapping-log append fails, processing
the seed leaves `savedCount` at zero and the queue empty. -/
theorem save_article_guarded_witness :
    ((wFailWrite.articleWriteOk (normalize START_URL) &&
        wFailWrite.mappingWriteOk (normalize START_URL)) = true →
      (crawlStep wFailWrite ⟨∅, [START_URL], 0, 0⟩).savedCount = 0 + 1) ∧
    ((wFailWrite.articleWriteOk (normalize START_URL) &&
        wFailWrite.mappingWriteOk (normalize START_URL)) = false →
      (crawlStep wFailWrite ⟨∅, [START_URL], 0, 0⟩).savedCount = 0 ∧
      (crawlStep wFailWrite ⟨∅, [START_URL], 0, 0⟩).queue = []) :=
  save_article_guarded wFailWrite ∅ START_URL [] 0 0 [] (by decide) rfl rfl

/-- C9: along any run, the sequence of processed URLs has no duplicates, none
of them was in `visited` at the start of the run, and each of them is in
`visited` at the end of the run — a URL, once visited, is never processed
(hence never fetched) again. -/
theorem no_revisit (w : World) (n : Nat) (s : CrawlState) :
    (crawlTrace w n s).Nodup ∧
    (∀ v ∈ crawlTrace w n s, v ∉ s.visited) ∧
    (∀ v ∈ crawlTrace w n s, v ∈ (crawlLoop w n s).visited) :=
  ⟨crawlTrace_nodup w n s, crawlTrace_not_visited w n s, crawlTrace_visited_after w n s⟩

/-- C9 witness: a concrete three-step run from the seed. -/
theorem no_revisit_witness :
    (crawlTrace wFrag 3 sStart).Nodup ∧
    (∀ v ∈ crawlTrace wFrag 3 sStart, v ∉ sStart.visited) ∧
    (∀ v ∈ crawlTrace wFrag 3 sStart, v ∈ (crawlLoop wFrag 3 sStart).visited) :=
  no_revisit wFrag 3 sStart

/-- C10 counterexample: a checkpoint that deserializes to a dict holding only
the `visited_urls` key makes `load_state` report no state, yet the visited
set has already been overwritten — the in-memory components are not all left
at their fresh-run values. -/
theorem partial_load_not_fresh :
    (load_state (some (some corruptCheckpoint)) freshState).2 = false ∧
    (load_state (some (some corruptCheckpoint)) freshState).1.visited ≠ freshState.visited :=
  ⟨rfl, by decide⟩

/-- C10 (amended): any checkpoint-read failure is caught and reported as
"no state loaded" rather than terminating; a failure occurring before any
field is assigned (missing file, unparseable pickle, or missing
`visited_urls` key) leaves the state at its fresh-run values, while a failure
after the `visited_urls` assignment leaves the already-assigned visited set
holding the checkpoint's value. -/
theorem load_state_failure (g : CrawlState) (r : RawCheckpoint) :
    load_state none g = (g, false) ∧
    load_state (some none) g = (g, false) ∧
    (r.visited_urls = none → load_state (some (some r)) g = (g, false)) ∧
    (∀ vs, r.visited_urls = some vs → r.saved_count = none →
      load_state (some (some r)) g = ({ g with visited := vs.toFinset }, false)) := by
  refine ⟨rfl, rfl, fun h => ?_, fun vs h1 h2 => ?_⟩
  · simp [load_state, h]
  · simp [load_state, h1, h2]

/-- C10 witness: the missing-file case and the partially-keyed-dict case,
evaluated on concrete inputs. -/
theorem load_state_failure_witness :
    load_state none freshState = (freshState, false) ∧
    load_state (some (some corruptCheckpoint)) freshState =
      ({ freshState with visited := [articleUrl].toFinset }, false) :=
  ⟨(load_state_failure freshState corruptCheckpoint).1,
   (load_state_failure freshState corruptCheckpoint).2.2.2 [articleUrl] rfl rfl⟩

end CivSearch
